import Mathlib

/-!
Verification of the mqt.naviz repository excerpt.

The excerpt consists of two Python files:
* `python/mqt/naviz/__init__.py` — the package initializer, which re-exports
  the version string from `mqt.naviz._version` and declares `__all__`;
* `docs/conf.py` — the Sphinx documentation build configuration, which
  computes `release = version.split("+")[0]` and declares a number of
  configuration assignments (`intersphinx_mapping`, `rust_crates`, ...).

We embed the data and the computations of these files and prove the
claimed properties about them.
-/

/-- Python's `str.split(sep)` for a one-character separator, on the
character-list view of strings.  Mirrors CPython semantics: the string is
cut at every occurrence of `sep`; the empty string yields `[[]]`, and a
leading or trailing separator yields an empty field. -/
def pySplitOn (sep : Char) : List Char → List (List Char)
  | [] => [[]]
  | c :: cs =>
    if c = sep then
      [] :: pySplitOn sep cs
    else
      match pySplitOn sep cs with
      | [] => [[c]]
      | r :: rs => (c :: r) :: rs

/-- `conf.py` line 9: `release = version.split("+")[0]`.  The `[0]` indexing
is modelled by `List.head!`, which matches Python indexing on the (always
non-empty, see below) result of `split`. -/
def releaseOf (v : List Char) : List Char :=
  (pySplitOn '+' v).head!

/-- The module object produced by executing `python/mqt/naviz/__init__.py`,
as a record of the attributes the file binds.  The value of
`mqt.naviz._version.version` is a parameter, since `_version.py` is a
generated file outside the excerpt. -/
structure NavizInitModule where
  version_attr : List Char
  all_attr : List String
deriving DecidableEq, Repr

/-- Executing `python/mqt/naviz/__init__.py` when `_version.version`
evaluates to `v`: the file runs
`from ._version import version as __version__` (binding `version_attr`)
and `__all__ = ["__version__"]` (binding `all_attr`). -/
def navizInit (v : List Char) : NavizInitModule :=
  { version_attr := v, all_attr := ["__version__"] }

/-- Python semantics of `from mqt.naviz import *`: with `__all__` defined,
a wildcard import binds exactly the names listed in `__all__`. -/
def wildcardImportNames (m : NavizInitModule) : List String :=
  m.all_attr

/-- `conf.py` lines 49-59: the `intersphinx_mapping` dictionary, as the
ordered association list of its entries `(key, (url, None))`. -/
def intersphinx_mapping : List (String × String × Option String) :=
  [ ("python", "https://docs.python.org/3", none),
    ("numpy", "https://numpy.org/doc/stable/", none),
    ("qiskit", "https://docs.quantum.ibm.com/api/qiskit", none),
    ("mqt", "https://mqt.readthedocs.io/en/latest", none),
    ("core", "https://mqt.readthedocs.io/projects/core/en/latest", none),
    ("ddsim", "https://mqt.readthedocs.io/projects/ddsim/en/latest", none),
    ("qcec", "https://mqt.readthedocs.io/projects/qcec/en/latest", none),
    ("qecc", "https://mqt.readthedocs.io/projects/qecc/en/latest", none),
    ("syrec", "https://mqt.readthedocs.io/projects/syrec/en/latest", none) ]

/-- `conf.py` lines 204-211: the `rust_crates` dictionary, as the ordered
association list of its entries. -/
def rust_crates : List (String × String) :=
  [ ("animator", "animator"),
    ("bindings", "bindings"),
    ("renderer", "renderer"),
    ("repository", "repository"),
    ("state", "state"),
    ("video", "video") ]

/-- A top-level Python statement, classified by kind.  `importFromStmt`
records the source module and the `(name, bound-as)` pairs; `assign`
records the assignment target.  `functionDef` and `classDef` are the kinds
that would carry algorithmic logic; the claim is that neither file
contains one. -/
inductive PyStmt where
  | moduleDocstring : PyStmt
  | importFromStmt (module : String) (names : List (String × String)) : PyStmt
  | assign (target : String) : PyStmt
  | functionDef (name : String) : PyStmt
  | classDef (name : String) : PyStmt
deriving DecidableEq, Repr

/-- A statement that carries algorithmic, architectural, or protocol
logic: a function or class definition. -/
def definesFunctionOrClass : PyStmt → Bool
  | .functionDef _ => true
  | .classDef _ => true
  | _ => false

/-- A statement that is documentation build configuration or a re-export:
a docstring, an import, or a plain assignment. -/
def isConfigOrReexport : PyStmt → Bool
  | .moduleDocstring => true
  | .importFromStmt _ _ => true
  | .assign _ => true
  | _ => false

/-- The top-level statements of `docs/conf.py`, in file order. -/
def conf_py_stmts : List PyStmt :=
  [ .moduleDocstring,
    .importFromStmt "__future__" [("annotations", "annotations")],
    .importFromStmt "importlib" [("metadata", "metadata")],
    .assign "version",
    .assign "release",
    .assign "project",
    .assign "author",
    .assign "language",
    .assign "project_copyright",
    .assign "master_doc",
    .assign "templates_path",
    .assign "extensions",
    .assign "source_suffix",
    .assign "exclude_patterns",
    .assign "pygments_style",
    .assign "intersphinx_mapping",
    .assign "myst_enable_extensions",
    .assign "myst_substitutions",
    .assign "myst_heading_anchors",
    .assign "nb_execution_mode",
    .assign "nb_mime_priority_overrides",
    .assign "copybutton_prompt_text",
    .assign "copybutton_prompt_is_regexp",
    .assign "copybutton_line_continuation_character",
    .assign "modindex_common_prefix",
    .assign "autoapi_dirs",
    .assign "autoapi_python_use_implicit_namespaces",
    .assign "autoapi_root",
    .assign "autoapi_add_toctree_entry",
    .assign "autoapi_options",
    .assign "autoapi_keep_files",
    .assign "add_module_names",
    .assign "toc_object_entries_show_parents",
    .assign "python_use_unqualified_type_names",
    .assign "napoleon_google_docstring",
    .assign "napoleon_numpy_docstring",
    .assign "html_theme",
    .assign "html_static_path",
    .assign "html_css_files",
    .assign "html_theme_options",
    .assign "numfig",
    .assign "numfig_secnum_depth",
    .assign "sd_fontawesome_latex",
    .assign "image_converter_args",
    .assign "latex_engine",
    .assign "latex_documents",
    .assign "latex_logo",
    .assign "latex_elements",
    .assign "latex_domain_indices",
    .assign "latex_docclass",
    .assign "rust_crates",
    .assign "rust_doc_dir",
    .assign "rust_rustdoc_fmt" ]

/-- The top-level statements of `python/mqt/naviz/__init__.py`, in file
order: the module docstring, the future import, the version re-export
(binding `version` as `__version__`), and the `__all__` assignment. -/
def naviz_init_stmts : List PyStmt :=
  [ .moduleDocstring,
    .importFromStmt "__future__" [("annotations", "annotations")],
    .importFromStmt "._version" [("version", "__version__")],
    .assign "__all__" ]

/-- The 17 physical lines of `python/mqt/naviz/__init__.py`, verbatim. -/
def naviz_init_lines : List String :=
  [ "# Copyright (c) 2023 - 2025 Chair for Design Automation, TUM",
    "# Copyright (c) 2025 Munich Quantum Software Company GmbH",
    "# All rights reserved.",
    "#",
    "# SPDX-License-Identifier: MIT",
    "#",
    "# Licensed under the MIT License",
    "",
    "\"\"\"MQT NAViz library.\"\"\"",
    "",
    "from __future__ import annotations",
    "",
    "from ._version import version as __version__",
    "",
    "__all__ = [",
    "    \"__version__\",",
    "]" ]

/-! ### Helper lemmas about `pySplitOn` -/

theorem pySplitOn_length_pos (sep : Char) (cs : List Char) :
    0 < (pySplitOn sep cs).length := by
  induction cs with
  | nil => simp [pySplitOn]
  | cons c cs ih =>
    unfold pySplitOn
    by_cases h : c = sep
    · simp [h]
    · rw [if_neg h]
      cases hr : pySplitOn sep cs with
      | nil => simp
      | cons r rs => simp

theorem pySplitOn_head (sep : Char) (cs : List Char) :
    (pySplitOn sep cs).head! = cs.takeWhile (fun c => c != sep) := by
  induction cs with
  | nil => rfl
  | cons c cs ih =>
    unfold pySplitOn
    by_cases h : c = sep
    · rw [if_pos h, List.takeWhile_cons]
      simp [h]
    · rw [if_neg h, List.takeWhile_cons]
      have hne : (c != sep) = true := by simpa using h
      rw [hne]
      cases hr : pySplitOn sep cs with
      | nil =>
        have hp := pySplitOn_length_pos sep cs
        rw [hr] at hp
        simp at hp
      | cons r rs =>
        rw [hr] at ih
        simpa using congrArg (fun l => c :: l) ih

/-! ### Claim theorems -/

/-- C1: importing the package `mqt.naviz` exposes a version string: the
`__version__` attribute of the module produced by the initializer exists
(it is the `version_attr` field) and is exactly the value of
`mqt.naviz._version.version`, re-exported unchanged. -/
theorem c1_version_reexported_unchanged (v : List Char) :
    (navizInit v).version_attr = v := rfl

/-- C2: for every version string `v`, the `release` computed by
`conf.py` as `version.split("+")[0]` is the longest initial segment of
`v` before the first `'+'`; hence `release` contains no `'+'`, `release`
is an initial segment of `v`, and `release = v` whenever `v` contains no
`'+'`. -/
theorem c2_release_strips_local_version (v : List Char) :
    releaseOf v = v.takeWhile (fun c => c != '+') ∧
    '+' ∉ releaseOf v ∧
    (∃ t, releaseOf v ++ t = v) ∧
    ('+' ∉ v → releaseOf v = v) := by
  have h : releaseOf v = v.takeWhile (fun c => c != '+') := pySplitOn_head '+' v
  refine ⟨h, ?_, ?_, ?_⟩
  · intro hm
    rw [h] at hm
    have := List.mem_takeWhile_imp hm
    simp at this
  · exact ⟨v.dropWhile (fun c => c != '+'),
      by rw [h, List.takeWhile_append_dropWhile]⟩
  · intro hnp
    rw [h, List.takeWhile_eq_self_iff]
    intro x hx
    simp only [bne_iff_ne, ne_eq]
    intro hxp
    exact hnp (hxp ▸ hx)

/-- C2 witness: the theorem evaluated at the concrete version string
`"1.2.3+g1a2b3c4"`, whose release is `"1.2.3"`, discharging the
hypothesis of the final conjunct at a plus-free input. -/
theorem c2_release_strips_local_version_witness :
    releaseOf ("1.2.3+g1a2b3c4".toList) = "1.2.3".toList ∧
    releaseOf ("1.2.3".toList) = "1.2.3".toList :=
  ⟨((c2_release_strips_local_version ("1.2.3+g1a2b3c4".toList)).1).trans (by decide),
   (c2_release_strips_local_version ("1.2.3".toList)).2.2.2 (by decide)⟩

/-- C3: the `rust_crates` mapping in `conf.py` has exactly the six keys
`animator`, `bindings`, `renderer`, `repository`, `state`, `video`, and
maps each key to itself. -/
theorem c3_rust_crates_exactly_six_identity :
    rust_crates.map Prod.fst =
      ["animator", "bindings", "renderer", "repository", "state", "video"] ∧
    rust_crates.length = 6 ∧
    rust_crates.all (fun p => p.2 == p.1) = true := by
  exact ⟨rfl, rfl, rfl⟩

/-- C4: no algorithmic, architectural, or protocol logic is present in
the two source files: every top-level statement of `docs/conf.py` and of
`python/mqt/naviz/__init__.py` is a docstring, an import/re-export, or a
configuration assignment, and neither file contains a function or class
definition. -/
theorem c4_no_algorithmic_logic :
    conf_py_stmts.all isConfigOrReexport = true ∧
    naviz_init_stmts.all isConfigOrReexport = true ∧
    conf_py_stmts.all (fun s => !(definesFunctionOrClass s)) = true ∧
    naviz_init_stmts.all (fun s => !(definesFunctionOrClass s)) = true := by
  exact ⟨rfl, rfl, rfl, rfl⟩

/-- C5 counterexample: the package initializer of `mqt.naviz` is not a
single-line file — it has 17 physical lines, not 1. -/
theorem c5_init_not_one_line :
    ¬ (naviz_init_lines.length = 1) := by decide

/-- C5 amended: the package initializer is a short 17-line file (license
header comments, a docstring, a future import, the version re-export and
`__all__`); the content exposing the version string is a single line,
namely the one re-export statement. -/
theorem c5_init_short_single_reexport_line :
    naviz_init_lines.length = 17 ∧
    (naviz_init_lines.filter
      (fun l => l == "from ._version import version as __version__")).length = 1 ∧
    naviz_init_stmts.filter (fun s => !(isConfigOrReexport s)) = [] := by
  refine ⟨rfl, by decide, rfl⟩

/-- C6: `intersphinx_mapping` in `conf.py` is a dictionary whose key set
is exactly `python, numpy, qiskit, mqt, core, ddsim, qcec, qecc, syrec`,
each key mapped to a pair of a documentation URL (an `https://` address)
and `None`. -/
theorem c6_intersphinx_mapping_exact :
    intersphinx_mapping.map Prod.fst =
      ["python", "numpy", "qiskit", "mqt", "core", "ddsim", "qcec", "qecc", "syrec"] ∧
    intersphinx_mapping.all
      (fun p => p.2.2 == none && "https://".toList.isPrefixOf p.2.1.toList) = true := by
  exact ⟨rfl, by decide⟩

/-- C7: computing `release` is total: for every separator and every
string, Python's `split` returns a list with at least one element, so
the `[0]` indexing in `version.split("+")[0]` never fails. -/
theorem c7_split_always_nonempty (sep : Char) (v : List Char) :
    0 < (pySplitOn sep v).length :=
  pySplitOn_length_pos sep v

/-- C8: the declared public API of `mqt.naviz` is exactly one name:
`__all__` equals `["__version__"]`, so a wildcard import from
`mqt.naviz` binds only `__version__`. -/
theorem c8_all_is_exactly_version (v : List Char) :
    (navizInit v).all_attr = ["__version__"] ∧
    wildcardImportNames (navizInit v) = ["__version__"] :=
  ⟨rfl, rfl⟩
